import Mathlib

/-!
A shallow embedding of the demo plugin's configuration lifecycle
(`src/http_hooks.go`, authoritative copy at lines 1687-2689, plus the dialog
handler at lines 52-195 and `src/command_hooks.go`), together with theorems
settling the specification claims about it.

Modelling conventions:
* Go `map[string]string` values are association lists (`List (String × String)`);
  `m[k] = v` is `mapInsert`, reads are `mapLookup` (missing key reads the zero
  value `""` where the source relies on that).
* Fallible host API calls return `Except AppError _`; a Go `panic` is an
  `Except.error` at the outermost level of the embedded function.
* The host (Mattermost server) is a record of deterministic functions
  (`PluginAPI`); logging calls have no effect on any claim and are dropped.
* Posts created through the host are materialised as `List Post` return values
  so that theorems can speak about the side-effect notifications.
* Pointer identity, which the value-level model erases, is studied in two
  small reference-level models: `PtrModel` (the configuration pointer guarded
  by `setConfiguration`) and `HeapModel` (map references, for the deep-copy
  property of `Clone`).
-/

namespace DemoPlugin

/-- A Go `interface\x7b\x7d` value as it occurs in the configuration diff and in
dialog submissions: a string, a bool, or an int. -/
inductive GoValue where
  | str : String → GoValue
  | bool : Bool → GoValue
  | int : Int → GoValue
deriving DecidableEq, Repr

/-- The relevant parts of `model.AppError`: a message and an HTTP status code
(`ensureDemoUser` branches on `err.StatusCode == http.StatusNotFound`). -/
structure AppError where
  message : String
  statusCode : Int
deriving DecidableEq, Repr

/-- The fields of `model.Team` the plugin reads: `Id` and `Name`. -/
structure Team where
  id : String
  name : String
deriving DecidableEq, Repr

/-- The field of `model.Channel` the plugin reads after ensuring: `Id`. -/
structure Channel where
  id : String
deriving DecidableEq, Repr

/-- The fields of `model.User` the plugin reads and writes:
`Id`, `Username`, `LastName`. -/
structure User where
  id : String
  username : String
  lastName : String
deriving DecidableEq, Repr

/-- The fields of `model.Post` the plugin fills in when creating posts. -/
structure Post where
  userId : String
  channelId : String
  message : String
  props : List (String × GoValue) := []
deriving DecidableEq, Repr

/-- Association-list rendering of Go `m[k] = v` on a `map[string]string`:
rebind the key if present, otherwise add the pair. -/
def mapInsert (m : List (String × String)) (k v : String) :
    List (String × String) :=
  if m.any (fun kv => kv.1 = k) then
    m.map (fun kv => if kv.1 = k then (k, v) else kv)
  else
    m ++ [(k, v)]

/-- Association-list rendering of Go `v, ok := m[k]` on a `map[string]string`. -/
def mapLookup (m : List (String × String)) (k : String) : Option String :=
  (m.find? (fun kv => kv.1 = k)).map (fun kv => kv.2)

/-- The plugin's `configuration` struct (`src/http_hooks.go:2291-2356`): the
public fields deserialised from the server configuration, plus the computed
fields `disabled`, `demoUserID` and `demoChannelIDs`. -/
structure configuration where
  Username : String
  ChannelName : String
  LastName : String
  TextStyle : String
  RandomSecret : String
  SecretMessage : String
  EnableMentionUser : Bool
  MentionUser : String
  SecretNumber : Int
  IntegrationRequestDelay : Int
  disabled : Bool
  demoUserID : String
  demoChannelIDs : List (String × String)
deriving DecidableEq, Repr

/-- The zero value `&configuration\x7b\x7d`: empty strings, `false`, `0`, and a
nil map. -/
def zeroConfiguration : configuration :=
  { Username := "", ChannelName := "", LastName := "", TextStyle := "",
    RandomSecret := "", SecretMessage := "", EnableMentionUser := false,
    MentionUser := "", SecretNumber := 0, IntegrationRequestDelay := 0,
    disabled := false, demoUserID := "", demoChannelIDs := [] }

/-- Clone deep copies the configuration (`src/http_hooks.go:2335-2357`). The
source's copy loop over `demoChannelIDs` builds a map equal to the original;
at the value level the clone therefore carries the same association list.
The aliasing content of the deep copy is studied in `HeapModel.Clone`. -/
def configuration.Clone (c : configuration) : configuration :=
  let demoChannelIDs := c.demoChannelIDs
  { Username := c.Username, ChannelName := c.ChannelName,
    LastName := c.LastName, TextStyle := c.TextStyle,
    RandomSecret := c.RandomSecret, SecretMessage := c.SecretMessage,
    EnableMentionUser := c.EnableMentionUser, MentionUser := c.MentionUser,
    SecretNumber := c.SecretNumber,
    IntegrationRequestDelay := c.IntegrationRequestDelay,
    disabled := c.disabled, demoUserID := c.demoUserID,
    demoChannelIDs := demoChannelIDs }

/-- The plugin state the claims touch: the guarded configuration pointer
(`none` when no configuration has been published yet) and the bot id
(`src/http_hooks.go:1687-1705`). -/
structure Plugin where
  configuration : Option configuration
  botID : String
deriving DecidableEq, Repr

/-- getConfiguration retrieves the active configuration
(`src/http_hooks.go:2362-2371`): the zero-value configuration when the
pointer is nil, otherwise the published snapshot. -/
def getConfiguration (p : Plugin) : configuration :=
  match p.configuration with
  | none => zeroConfiguration
  | some c => c

/-- The public plugin settings the host supplies via
`LoadPluginConfiguration`. -/
structure PluginSettings where
  Username : String
  ChannelName : String
  LastName : String
  TextStyle : String
  RandomSecret : String
  SecretMessage : String
  EnableMentionUser : Bool
  MentionUser : String
  SecretNumber : Int
  IntegrationRequestDelay : Int
deriving DecidableEq, Repr

/-- Overlay the host-supplied public fields onto a configuration, as
`p.API.LoadPluginConfiguration(configuration)` does; the computed fields
`disabled`, `demoUserID`, `demoChannelIDs` are untouched. -/
def loadPluginConfigurationInto (c : configuration) (s : PluginSettings) :
    configuration :=
  { c with
    Username := s.Username, ChannelName := s.ChannelName,
    LastName := s.LastName, TextStyle := s.TextStyle,
    RandomSecret := s.RandomSecret, SecretMessage := s.SecretMessage,
    EnableMentionUser := s.EnableMentionUser, MentionUser := s.MentionUser,
    SecretNumber := s.SecretNumber,
    IntegrationRequestDelay := s.IntegrationRequestDelay }

/-- The host API surface the embedded hooks call, as deterministic
functions. -/
structure PluginAPI where
  loadPluginConfiguration : Except AppError PluginSettings
  getTeams : Except AppError (List Team)
  getUserByUsername : String → Except AppError User
  createUser : User → Except AppError User
  updateUser : User → Except AppError User
  createTeamMember : String → String → Except AppError Unit
  ensureBot : Except AppError String
  getChannelByNameForTeamName : String → String → Option Channel
  createChannel : String → String → Except AppError Channel
  uploadFile : String → Except AppError String
  getUser : String → Except AppError User

/-- BackgroundJob (`src/http_hooks.go:2248-2269`, identical copy in
`src/command_hooks.go:305-326`): reads the current configuration, returns
immediately when disabled, otherwise posts one message per demo channel.
The result is the list of posts handed to `CreatePost` (creation errors are
only logged). -/
def BackgroundJob (p : Plugin) : List Post :=
  let configuration := getConfiguration p
  if configuration.disabled then
    []
  else
    configuration.demoChannelIDs.map (fun kv =>
      { userId := p.botID, channelId := kv.2,
        message := "Background job executed" })

/-- ensureDemoUser (`src/http_hooks.go:2595-2641`): look up the configured
user, creating it on a 404, align its last name with the configuration,
and add it to every team (member-add errors are only logged). Returns the
user id. -/
def ensureDemoUser (api : PluginAPI) (c : configuration) :
    Except AppError String := do
  let user ←
    match api.getUserByUsername c.Username with
    | Except.error e =>
        if e.statusCode = 404 then
          api.createUser
            { id := "", username := c.Username, lastName := c.LastName }
        else
          Except.error e
    | Except.ok u => Except.ok u
  let user ←
    if user.lastName ≠ c.LastName then
      api.updateUser { user with lastName := c.LastName }
    else
      Except.ok user
  let _teams ← api.getTeams
  Except.ok user.id

/-- The loop body of `ensureDemoChannels`: for each team, look the channel up
by name (errors ignored), create it when absent — aborting the whole ensure
on a creation failure — and record `demoChannelIDs[team.Id] = channel.Id`. -/
def ensureDemoChannelsLoop (api : PluginAPI) (c : configuration) :
    List Team → List (String × String) →
    Except AppError (List (String × String))
  | [], acc => Except.ok acc
  | t :: ts, acc =>
    match api.getChannelByNameForTeamName t.name c.ChannelName with
    | some channel => ensureDemoChannelsLoop api c ts (mapInsert acc t.id channel.id)
    | none =>
      match api.createChannel t.id c.ChannelName with
      | Except.error e => Except.error e
      | Except.ok channel =>
          ensureDemoChannelsLoop api c ts (mapInsert acc t.id channel.id)

/-- ensureDemoChannels (`src/http_hooks.go:2643-2676`): query the teams and
run the ensure loop starting from an empty map. -/
def ensureDemoChannels (api : PluginAPI) (c : configuration) :
    Except AppError (List (String × String)) := do
  let teams ← api.getTeams
  ensureDemoChannelsLoop api c teams []

/-- The `configurationDiff` map built by `diffConfiguration`
(`src/http_hooks.go:2393-2429`), rendered in source order. Each compared
field that differs contributes one entry; note that the source assigns
`newConfiguration.ChannelName` (not `TextStyle`) to the `text_style` key and
redacts the random secret. -/
def configurationDiffEntries (oldCfg newCfg : configuration) :
    List (String × GoValue) :=
  (if newCfg.Username ≠ oldCfg.Username then
    [("username", GoValue.str newCfg.Username)] else []) ++
  (if newCfg.ChannelName ≠ oldCfg.ChannelName then
    [("channel_name", GoValue.str newCfg.ChannelName)] else []) ++
  (if newCfg.LastName ≠ oldCfg.LastName then
    [("lastname", GoValue.str newCfg.LastName)] else []) ++
  (if newCfg.TextStyle ≠ oldCfg.TextStyle then
    [("text_style", GoValue.str newCfg.ChannelName)] else []) ++
  (if newCfg.RandomSecret ≠ oldCfg.RandomSecret then
    [("random_secret", GoValue.str "<HIDDEN>")] else []) ++
  (if newCfg.SecretMessage ≠ oldCfg.SecretMessage then
    [("secret_message", GoValue.str newCfg.SecretMessage)] else []) ++
  (if newCfg.EnableMentionUser ≠ oldCfg.EnableMentionUser then
    [("enable_mention_user", GoValue.bool newCfg.EnableMentionUser)] else []) ++
  (if newCfg.MentionUser ≠ oldCfg.MentionUser then
    [("mention_user", GoValue.str newCfg.MentionUser)] else []) ++
  (if newCfg.SecretNumber ≠ oldCfg.SecretNumber then
    [("secret_number", GoValue.int newCfg.SecretNumber)] else [])

/-- The per-team notification loop of `diffConfiguration`
(`src/http_hooks.go:2436-2465`): teams missing from the new mapping are
skipped with a warning; an upload failure aborts the loop (the source
returns); otherwise one post carrying the diff as props is created. -/
def diffConfigurationLoop (api : PluginAPI) (botID : String)
    (newCfg : configuration) (diff : List (String × GoValue)) :
    List Team → List Post
  | [] => []
  | t :: ts =>
    match mapLookup newCfg.demoChannelIDs t.id with
    | none => diffConfigurationLoop api botID newCfg diff ts
    | some demoChannelID =>
      match api.uploadFile demoChannelID with
      | Except.error _ => []
      | Except.ok _fileID =>
          { userId := botID, channelId := demoChannelID,
            message := "OnConfigChange: loading new configuration",
            props := diff }
            :: diffConfigurationLoop api botID newCfg diff ts

/-- diffConfiguration (`src/http_hooks.go:2393-2466`): diff the current
configuration against the new one and, when anything changed, post a
notification (with the diff as props) to each team's demo channel. Returns
the posts created; a `GetTeams` failure is only logged. -/
def diffConfiguration (api : PluginAPI) (p : Plugin)
    (newCfg : configuration) : List Post :=
  let oldCfg := getConfiguration p
  let configurationDiff := configurationDiffEntries oldCfg newCfg
  if configurationDiff.length = 0 then
    []
  else
    match api.getTeams with
    | Except.error _ => []
    | Except.ok teams =>
        diffConfigurationLoop api p.botID newCfg configurationDiff teams

/-- OnConfigurationChange (`src/http_hooks.go:2472-2511`): clone the current
snapshot, overlay the host-supplied settings, ensure the demo user, the bot
and the demo channels (any failure returns the wrapped error with the
previous configuration still published), emit the diff notifications, and
publish the new snapshot. The pointer-identity panic inside
`setConfiguration` cannot fire here because the published value is a fresh
clone; it is studied in `PtrModel.setConfiguration`. -/
def OnConfigurationChange (api : PluginAPI) (p : Plugin) :
    Except String Unit × Plugin :=
  let cfg0 := (getConfiguration p).Clone
  match api.loadPluginConfiguration with
  | Except.error e =>
      (Except.error ("failed to load plugin configuration: " ++ e.message), p)
  | Except.ok settings =>
  let cfg1 := loadPluginConfigurationInto cfg0 settings
  match ensureDemoUser api cfg1 with
  | Except.error e =>
      (Except.error ("failed to ensure demo user: " ++ e.message), p)
  | Except.ok demoUserID =>
  let cfg2 := { cfg1 with demoUserID := demoUserID }
  match api.ensureBot with
  | Except.error e =>
      (Except.error ("failed to ensure demo bot: " ++ e.message), p)
  | Except.ok botID =>
  let p1 : Plugin := { p with botID := botID }
  match ensureDemoChannels api cfg2 with
  | Except.error e =>
      (Except.error ("failed to ensure demo channels: " ++ e.message), p1)
  | Except.ok demoChannelIDs =>
  let cfg3 := { cfg2 with demoChannelIDs := demoChannelIDs }
  let _posts := diffConfiguration api p1 cfg3
  (Except.ok (), { p1 with configuration := some cfg3 })

/-- The plugin manifest id. The manifest file itself is not part of the
sources; the concrete value is immaterial to every claim (it only appears
inside logged message text). -/
def manifestId : String := "com.mattermost.demo-plugin"

/-- postPluginMessage (`src/http_hooks.go:2213-2246`): no-op when disabled;
otherwise decorate the message with the mention prefix and text style and
post it to the team's demo channel (a missing map entry reads the zero
value `""`), or to every demo channel when `teamID` is empty. Returns the
posts handed to `CreatePost`. -/
def postPluginMessage (p : Plugin) (teamID msg : String) : List Post :=
  let configuration := getConfiguration p
  if configuration.disabled then
    []
  else
    let msg := if configuration.EnableMentionUser then
        "tag @" ++ configuration.MentionUser ++ " | " ++ msg
      else msg
    let msg := configuration.TextStyle ++ msg ++ configuration.TextStyle
    if teamID ≠ "" then
      [{ userId := p.botID,
         channelId := (mapLookup configuration.demoChannelIDs teamID).getD "",
         message := msg }]
    else
      configuration.demoChannelIDs.map (fun kv =>
        { userId := p.botID, channelId := kv.2, message := msg })

/-- The fields of `model.SubmitDialogRequest` the handler reads. A submission
value is `none` when the key is bound to a nil interface value; an absent
key reads as nil as well. -/
structure SubmitDialogRequest where
  cancelled : Bool
  userId : String
  submission : List (String × Option GoValue)
deriving DecidableEq, Repr

/-- Read `request.Submission[k]`: an absent key and an explicit nil value
both yield the nil interface value. -/
def submissionGet (sub : List (String × Option GoValue)) (k : String) :
    Option GoValue :=
  match sub.find? (fun kv => kv.1 = k) with
  | some (_, some v) => some v
  | _ => none

/-- The Go type assertion `v.(string)`: panics (modelled as `Except.error`)
on a nil interface value or on a non-string value. -/
def typeAssertString : Option GoValue → Except String String
  | some (GoValue.str s) => Except.ok s
  | some _ =>
      Except.error "interface conversion: value is not a string"
  | none =>
      Except.error "interface conversion: interface is nil, not string"

/-- Where the embedded prefix of `handleDialog` ends: an early `400` response
after a decode failure, an early `200` after a failed user lookup, or the
point just past the attachment-color computation. -/
inductive DialogResult where
  | badRequest
  | userLookupFailed
  | reached (color : String)
deriving DecidableEq, Repr

/-- handleDialog (`src/http_hooks.go:52-113`): post the OnActivate message to
every team present in the demo-channel mapping (a `GetTeams` failure only
loses the loop; its wrapped error is discarded), decode the request body
(`none` stands for undecodable JSON and answers 400), look the submitting
user up (failure answers 200), then run the unchecked type assertion on
`Submission["4-User Impact"]` — a panic surfaces as `Except.error` — and
compute the attachment color, which is `""` for any priority other than
High, Medium or Low. The posting steps past the color computation are
outside the embedded prefix. The `request.Cancelled` check before decoding
reads the zero value `false` and is dead code. The OnActivate posting loop
at the top of the handler is split off as `handleDialogActivatePosts`. -/
def handleDialogActivatePosts (api : PluginAPI) (p : Plugin) : List Post :=
  let configuration := getConfiguration p
  let teams := match api.getTeams with
    | Except.error _ => []
    | Except.ok ts => ts
  teams.flatMap (fun t =>
    match mapLookup configuration.demoChannelIDs t.id with
    | none => []
    | some _ => postPluginMessage p t.id ("OnActivate: " ++ manifestId))

/-- The rest of handleDialog after its OnActivate posting loop; see
`handleDialogActivatePosts`. -/
def handleDialog (api : PluginAPI) (p : Plugin)
    (body : Option SubmitDialogRequest) :
    Except String (DialogResult × List Post) :=
  let posts := handleDialogActivatePosts api p
  match body with
  | none => Except.ok (DialogResult.badRequest, posts)
  | some request =>
    match api.getUser request.userId with
    | Except.error _ => Except.ok (DialogResult.userLookupFailed, posts)
    | Except.ok _user =>
      match typeAssertString
          (submissionGet request.submission "4-User Impact") with
      | Except.error msg => Except.error msg
      | Except.ok priority =>
        let color :=
          if priority = "High" then "#FF0000"
          else if priority = "Medium" then "#FFA500"
          else if priority = "Low" then "#000000"
          else ""
        Except.ok (DialogResult.reached color, posts)

end DemoPlugin

namespace DemoPlugin.PtrModel

/-- A Go pointer to a configuration struct: `none` is `nil`, `some r`
identifies a heap cell. Two pointers alias exactly when they are equal. -/
abbrev ConfigurationPtr := Option Nat

/-- The plugin state relevant to `setConfiguration`: the guarded
configuration pointer (`src/http_hooks.go:1696`). -/
structure Plugin where
  configuration : ConfigurationPtr
deriving DecidableEq, Repr

/-- setConfiguration (`src/http_hooks.go:2382-2391`): under the exclusive
lock, panic — modelled as `Except.error` — when called with a non-nil
pointer identical to the published one, otherwise swap the pointer. -/
def setConfiguration (p : Plugin) (c : ConfigurationPtr) :
    Except String Plugin :=
  if c ≠ none ∧ p.configuration = c then
    Except.error "setConfiguration called with the existing configuration"
  else
    Except.ok { p with configuration := c }

end DemoPlugin.PtrModel

namespace DemoPlugin.HeapModel

/-- The contents of a Go `map[string]string` heap cell. -/
abbrev GoMap := List (String × String)

/-- A heap of string maps; a map reference is an index into `maps`, and a
fresh map is allocated at the end. -/
structure MapHeap where
  maps : List GoMap
deriving DecidableEq, Repr

/-- Read the map behind a reference. A dangling reference reads like a nil
map (ranging over a nil Go map yields no entries). -/
def readMap (h : MapHeap) (r : Nat) : GoMap :=
  h.maps.getD r []

/-- A mutation of a `map[string]string`: add or rebind a key, or delete
one. -/
inductive MapMutation where
  | ins (k v : String)
  | del (k : String)
deriving DecidableEq, Repr

/-- Apply a map mutation to map contents. -/
def applyMutation : MapMutation → GoMap → GoMap
  | MapMutation.ins k v, m => DemoPlugin.mapInsert m k v
  | MapMutation.del k, m => m.filter (fun kv => kv.1 ≠ k)

/-- Mutate the map behind a reference in place. -/
def mutateMap (h : MapHeap) (r : Nat) (mu : MapMutation) : MapHeap :=
  ⟨h.maps.set r (applyMutation mu (readMap h r))⟩

/-- The configuration struct with its `demoChannelIDs` field kept as a map
reference, so that aliasing is observable. -/
structure configuration where
  Username : String
  ChannelName : String
  LastName : String
  TextStyle : String
  RandomSecret : String
  SecretMessage : String
  EnableMentionUser : Bool
  MentionUser : String
  SecretNumber : Int
  IntegrationRequestDelay : Int
  disabled : Bool
  demoUserID : String
  demoChannelIDs : Nat
deriving DecidableEq, Repr

/-- Clone (`src/http_hooks.go:2335-2357`) at the heap level: build a fresh
map holding a copy of the entries of `c.demoChannelIDs`, allocate it, and
return a struct agreeing with `c` on every other field but holding the
fresh reference. -/
def Clone (h : MapHeap) (c : configuration) : configuration × MapHeap :=
  let demoChannelIDs := readMap h c.demoChannelIDs
  let r := h.maps.length
  ({ Username := c.Username, ChannelName := c.ChannelName,
     LastName := c.LastName, TextStyle := c.TextStyle,
     RandomSecret := c.RandomSecret, SecretMessage := c.SecretMessage,
     EnableMentionUser := c.EnableMentionUser, MentionUser := c.MentionUser,
     SecretNumber := c.SecretNumber,
     IntegrationRequestDelay := c.IntegrationRequestDelay,
     disabled := c.disabled, demoUserID := c.demoUserID,
     demoChannelIDs := r },
   ⟨h.maps ++ [demoChannelIDs]⟩)

end DemoPlugin.HeapModel

namespace DemoPlugin

/-! ## Fixtures shared by concrete witnesses and counterexamples -/

/-- Host-supplied settings used by the benign host. -/
def settingsOk : PluginSettings :=
  { Username := "demouser", ChannelName := "demo-channel",
    LastName := "Demo", TextStyle := "", RandomSecret := "secret",
    SecretMessage := "shh", EnableMentionUser := false, MentionUser := "",
    SecretNumber := 7, IntegrationRequestDelay := 0 }

/-- A benign host: every call succeeds. -/
def apiOk : PluginAPI :=
  { loadPluginConfiguration := Except.ok settingsOk,
    getTeams := Except.ok [{ id := "t1", name := "Team One" }],
    getUserByUsername := fun _ =>
      Except.ok { id := "u1", username := "demouser", lastName := "Demo" },
    createUser := fun u => Except.ok { u with id := "u1" },
    updateUser := fun u => Except.ok u,
    createTeamMember := fun _ _ => Except.ok (),
    ensureBot := Except.ok "bot1",
    getChannelByNameForTeamName := fun _ _ => some { id := "ch1" },
    createChannel := fun _ _ => Except.ok { id := "ch1" },
    uploadFile := fun _ => Except.ok "f1",
    getUser := fun _ =>
      Except.ok { id := "u1", username := "demouser", lastName := "Demo" } }

/-- A previously published configuration, used as the active snapshot in
reload scenarios. -/
def cfgPrev : configuration :=
  { zeroConfiguration with
    Username := "old", demoChannelIDs := [("t1", "c1")] }

/-! ## C2: publishing the identical instance panics -/

/-- C2: for every plugin state whose published configuration pointer is the
instance `r`, calling `setConfiguration` with that exact instance panics
with the fixed message; the pointer is never silently replaced with
itself. -/
theorem setConfiguration_same_instance_panics
    (p : PtrModel.Plugin) (r : Nat) (h : p.configuration = some r) :
    PtrModel.setConfiguration p (some r) =
      Except.error "setConfiguration called with the existing configuration" := by
  simp [PtrModel.setConfiguration, h]

/-- Witness for C2 at the concrete state publishing instance `0`. -/
theorem setConfiguration_same_instance_panics_witness :
    (PtrModel.Plugin.mk (some 0)).configuration = some 0 ∧
    PtrModel.setConfiguration (PtrModel.Plugin.mk (some 0)) (some 0) =
      Except.error "setConfiguration called with the existing configuration" :=
  ⟨rfl, setConfiguration_same_instance_panics (PtrModel.Plugin.mk (some 0)) 0 rfl⟩

/-! ## C5: getConfiguration before any publication -/

/-- C5: when no configuration has been published yet (the pointer is nil),
`getConfiguration` returns the zero-value configuration — every field at
its zero value — rather than failing or returning nil. -/
theorem getConfiguration_nil_returns_zero (p : Plugin)
    (h : p.configuration = none) :
    getConfiguration p =
      { Username := "", ChannelName := "", LastName := "", TextStyle := "",
        RandomSecret := "", SecretMessage := "", EnableMentionUser := false,
        MentionUser := "", SecretNumber := 0, IntegrationRequestDelay := 0,
        disabled := false, demoUserID := "", demoChannelIDs := [] } := by
  simp [getConfiguration, h, zeroConfiguration]

/-- Witness for C5 at a concrete plugin state with a nil configuration. -/
theorem getConfiguration_nil_returns_zero_witness :
    (Plugin.mk none "bot1").configuration = none ∧
    getConfiguration (Plugin.mk none "bot1") =
      { Username := "", ChannelName := "", LastName := "", TextStyle := "",
        RandomSecret := "", SecretMessage := "", EnableMentionUser := false,
        MentionUser := "", SecretNumber := 0, IntegrationRequestDelay := 0,
        disabled := false, demoUserID := "", demoChannelIDs := [] } :=
  ⟨rfl, getConfiguration_nil_returns_zero (Plugin.mk none "bot1") rfl⟩

/-! ## C8: the background job self-skips when disabled -/

/-- C8: whenever the current configuration is disabled, `BackgroundJob`
returns without creating any post on any channel. -/
theorem BackgroundJob_disabled_no_posts (p : Plugin)
    (h : (getConfiguration p).disabled = true) :
    BackgroundJob p = [] := by
  simp [BackgroundJob, h]

/-- Witness for C8 at a concrete disabled plugin state that does have demo
channels to post to. -/
theorem BackgroundJob_disabled_no_posts_witness :
    (getConfiguration
        (Plugin.mk (some { cfgPrev with disabled := true }) "bot1")).disabled
      = true ∧
    BackgroundJob (Plugin.mk (some { cfgPrev with disabled := true }) "bot1")
      = [] :=
  ⟨rfl, BackgroundJob_disabled_no_posts
    (Plugin.mk (some { cfgPrev with disabled := true }) "bot1") rfl⟩

end DemoPlugin

namespace DemoPlugin.HeapModel

/-- C3: mutating the demoChannelIDs map of a clone — adding, rebinding or
deleting any key — leaves the original configuration's map unchanged, and at
the moment of cloning the clone agrees with the original on every field
(same map contents behind the fresh reference, same value fields). -/
theorem Clone_deep_copy (h : MapHeap) (c : configuration) (mu : MapMutation)
    (href : c.demoChannelIDs < h.maps.length) :
    readMap (mutateMap (Clone h c).2 (Clone h c).1.demoChannelIDs mu)
        c.demoChannelIDs = readMap h c.demoChannelIDs ∧
    readMap (Clone h c).2 (Clone h c).1.demoChannelIDs
        = readMap h c.demoChannelIDs ∧
    (Clone h c).1.Username = c.Username ∧
    (Clone h c).1.ChannelName = c.ChannelName ∧
    (Clone h c).1.LastName = c.LastName ∧
    (Clone h c).1.TextStyle = c.TextStyle ∧
    (Clone h c).1.RandomSecret = c.RandomSecret ∧
    (Clone h c).1.SecretMessage = c.SecretMessage ∧
    (Clone h c).1.EnableMentionUser = c.EnableMentionUser ∧
    (Clone h c).1.MentionUser = c.MentionUser ∧
    (Clone h c).1.SecretNumber = c.SecretNumber ∧
    (Clone h c).1.IntegrationRequestDelay = c.IntegrationRequestDelay ∧
    (Clone h c).1.disabled = c.disabled ∧
    (Clone h c).1.demoUserID = c.demoUserID := by
  refine ⟨?_, ?_, rfl, rfl, rfl, rfl, rfl, rfl, rfl, rfl, rfl, rfl, rfl, rfl⟩
  · simp only [Clone, mutateMap, readMap]
    rw [List.getD_eq_getElem?_getD, List.getD_eq_getElem?_getD,
      List.getElem?_set_ne (by omega), List.getElem?_append_left href]
  · simp only [Clone, readMap]
    rw [List.getD_eq_getElem?_getD, List.getElem?_concat_length]
    rfl

/-- A one-cell heap for the deep-copy witness. -/
def heapW : MapHeap := ⟨[[("t1", "c1")]]⟩

/-- A configuration whose map lives at reference 0 of `heapW`. -/
def cfgW : configuration :=
  { Username := "demouser", ChannelName := "demo-channel", LastName := "Demo",
    TextStyle := "", RandomSecret := "secret", SecretMessage := "shh",
    EnableMentionUser := false, MentionUser := "", SecretNumber := 7,
    IntegrationRequestDelay := 0, disabled := false, demoUserID := "u1",
    demoChannelIDs := 0 }

/-- Witness for C3: cloning `cfgW` over `heapW` and adding a binding to the
clone's map leaves the original map at reference 0 unchanged. -/
theorem Clone_deep_copy_witness :
    cfgW.demoChannelIDs < heapW.maps.length ∧
    readMap (mutateMap (Clone heapW cfgW).2 (Clone heapW cfgW).1.demoChannelIDs
        (MapMutation.ins "t2" "c2")) cfgW.demoChannelIDs
      = readMap heapW cfgW.demoChannelIDs :=
  ⟨by decide,
    (Clone_deep_copy heapW cfgW (MapMutation.ins "t2" "c2") (by decide)).1⟩

end DemoPlugin.HeapModel

namespace DemoPlugin

/-- C6 (exhibiting the divergence): diffing two configurations that differ
only in TextStyle produces exactly the `text_style` entry — the keys are
right — but the entry carries the new configuration's ChannelName (here
`""`), not the new value `"bold"` of the TextStyle field, because the
source assigns `newConfiguration.ChannelName` to that key. -/
theorem configurationDiff_text_style_carries_channel_name :
    configurationDiffEntries zeroConfiguration
        { zeroConfiguration with TextStyle := "bold" } =
      [("text_style", GoValue.str "")] ∧
    ({ zeroConfiguration with TextStyle := "bold" } : configuration).TextStyle
      = "bold" ∧
    ({ zeroConfiguration with TextStyle := "bold" } : configuration).ChannelName
      = "" := by
  refine ⟨by decide, rfl, rfl⟩

end DemoPlugin

namespace DemoPlugin

/-- A key is present in a map exactly when some entry carries it. -/
theorem mapLookup_isSome_any (m : List (String × String)) (j : String) :
    (mapLookup m j).isSome = m.any (fun kv => kv.1 = j) := by
  induction m with
  | nil => rfl
  | cons x xs ih =>
    by_cases hx : x.1 = j
    · simp [mapLookup, List.find?_cons_of_pos, hx]
    · simp only [mapLookup] at ih ⊢
      rw [List.find?_cons_of_neg _ (by simp [hx])]
      simp [hx, ih]

/-- The rebind step of `mapInsert` keeps every entry's key. -/
theorem any_key_map_rebind (m : List (String × String)) (k v j : String) :
    (m.map (fun kv => if kv.1 = k then (k, v) else kv)).any
        (fun kv => kv.1 = j)
      = m.any (fun kv => kv.1 = j) := by
  rw [List.any_map]
  have hfun : ((fun kv => decide (kv.1 = j)) ∘
        fun kv : String × String => if kv.1 = k then (k, v) else kv)
      = fun kv : String × String => decide (kv.1 = j) := by
    funext kv
    by_cases hkv : kv.1 = k <;> simp [hkv]
  rw [hfun]

/-- Go `m[k] = v` makes key `k` present. -/
theorem any_mapInsert_self (m : List (String × String)) (k v : String) :
    (mapInsert m k v).any (fun kv => kv.1 = k) = true := by
  rw [mapInsert]
  split
  · rename_i hany
    rw [any_key_map_rebind]
    exact hany
  · simp [List.any_append]

/-- Go `m[k] = v` keeps every key that was already present. -/
theorem any_mapInsert_mono (m : List (String × String)) (k v j : String)
    (h : m.any (fun kv => kv.1 = j) = true) :
    (mapInsert m k v).any (fun kv => kv.1 = j) = true := by
  rw [mapInsert]
  split
  · rw [any_key_map_rebind]
    exact h
  · simp [List.any_append, h]

/-- The ensure loop, when it succeeds, keeps every key of its accumulator
and adds an entry for every processed team. -/
theorem ensureDemoChannelsLoop_ok_covers (api : PluginAPI)
    (c : configuration) :
    ∀ (ts : List Team) (acc m : List (String × String)),
      ensureDemoChannelsLoop api c ts acc = Except.ok m →
      (∀ j, acc.any (fun kv => kv.1 = j) = true →
        m.any (fun kv => kv.1 = j) = true) ∧
      ∀ t ∈ ts, m.any (fun kv => kv.1 = t.id) = true := by
  intro ts
  induction ts with
  | nil =>
    intro acc m hok
    have hacc : acc = m := by simpa [ensureDemoChannelsLoop] using hok
    subst hacc
    exact ⟨fun j h => h, by simp⟩
  | cons t ts ih =>
    intro acc m hok
    rw [ensureDemoChannelsLoop] at hok
    cases hch : api.getChannelByNameForTeamName t.name c.ChannelName with
    | none =>
      rw [hch] at hok
      cases hcr : api.createChannel t.id c.ChannelName with
      | error e =>
        rw [hcr] at hok
        exact Except.noConfusion hok
      | ok ch =>
        rw [hcr] at hok
        obtain ⟨hmono, hcov⟩ := ih (mapInsert acc t.id ch.id) m hok
        refine ⟨fun j hj =>
          hmono j (any_mapInsert_mono acc t.id ch.id j hj), ?_⟩
        intro u hu
        rcases List.mem_cons.mp hu with hu | hu
        · subst hu
          exact hmono u.id (any_mapInsert_self acc u.id ch.id)
        · exact hcov u hu
    | some ch =>
      rw [hch] at hok
      obtain ⟨hmono, hcov⟩ := ih (mapInsert acc t.id ch.id) m hok
      refine ⟨fun j hj =>
        hmono j (any_mapInsert_mono acc t.id ch.id j hj), ?_⟩
      intro u hu
      rcases List.mem_cons.mp hu with hu | hu
      · subst hu
        exact hmono u.id (any_mapInsert_self acc u.id ch.id)
      · exact hcov u hu

/-- C4 (amended): a team-to-channel mapping returned by a successful
`ensureDemoChannels` is fully populated — every known team has an entry; a
mapping that is partial for some known team is never returned, because a
channel-setup failure aborts the ensure with an error instead of omitting
the team. -/
theorem ensureDemoChannels_ok_covers_all_teams (api : PluginAPI)
    (c : configuration) (ts : List Team) (m : List (String × String))
    (hteams : api.getTeams = Except.ok ts)
    (hok : ensureDemoChannels api c = Except.ok m) :
    ∀ t ∈ ts, (mapLookup m t.id).isSome = true := by
  rw [ensureDemoChannels, hteams] at hok
  have hloop : ensureDemoChannelsLoop api c ts [] = Except.ok m := hok
  intro t ht
  rw [mapLookup_isSome_any]
  exact (ensureDemoChannelsLoop_ok_covers api c ts [] m hloop).2 t ht

/-- Witness for C4 at the benign host with one team. -/
theorem ensureDemoChannels_ok_covers_all_teams_witness :
    apiOk.getTeams = Except.ok [{ id := "t1", name := "Team One" }] ∧
    ensureDemoChannels apiOk zeroConfiguration
      = Except.ok [("t1", "ch1")] ∧
    (mapLookup [("t1", "ch1")] "t1").isSome = true :=
  ⟨rfl, rfl,
    ensureDemoChannels_ok_covers_all_teams apiOk zeroConfiguration
      [{ id := "t1", name := "Team One" }] [("t1", "ch1")] rfl rfl
      { id := "t1", name := "Team One" } (by simp)⟩

/-- A host with two teams where the second team's demo channel does not
exist and the channel-creation call fails. -/
def apiC4 : PluginAPI :=
  { apiOk with
    getTeams := Except.ok
      [{ id := "tA", name := "Team A" }, { id := "tB", name := "Team B" }],
    getChannelByNameForTeamName := fun teamName _ =>
      if teamName = "Team A" then some { id := "chA" } else none,
    createChannel := fun _ _ =>
      Except.error { message := "create channel failed", statusCode := 500 } }

/-- C4 counterexample: when Team B's channel setup fails, ensureDemoChannels
does not return a mapping that merely omits Team B (with a warning) — it
aborts the whole ensure with the creation error, so no mapping at all is
produced for this reload. -/
theorem ensureDemoChannels_failed_team_not_omitted :
    ensureDemoChannels apiC4 zeroConfiguration
      = Except.error { message := "create channel failed", statusCode := 500 } := by
  rfl

end DemoPlugin

namespace DemoPlugin

/-- C1: when the configuration loads and the demo user and bot are ensured
but ensuring the demo channels fails — in particular when the host's
channel-creation call fails for one team — `OnConfigurationChange` returns
the wrapped error to the host and the previously published configuration
snapshot remains the active one, unchanged: `setConfiguration` is never
reached on the error path. -/
theorem OnConfigurationChange_ensure_failure_keeps_configuration
    (api : PluginAPI) (p : Plugin) (s : PluginSettings) (uid bid : String)
    (e : AppError)
    (hload : api.loadPluginConfiguration = Except.ok s)
    (huser : ensureDemoUser api
        (loadPluginConfigurationInto (getConfiguration p).Clone s)
      = Except.ok uid)
    (hbot : api.ensureBot = Except.ok bid)
    (hch : ensureDemoChannels api
        { loadPluginConfigurationInto (getConfiguration p).Clone s with
          demoUserID := uid }
      = Except.error e) :
    (OnConfigurationChange api p).1
      = Except.error ("failed to ensure demo channels: " ++ e.message) ∧
    (OnConfigurationChange api p).2.configuration = p.configuration := by
  refine ⟨?_, ?_⟩ <;>
    simp only [OnConfigurationChange, hload, huser, hbot, hch]

/-- A host whose channel lookups come back empty and whose channel-creation
call always fails. -/
def apiC1 : PluginAPI :=
  { apiOk with
    getChannelByNameForTeamName := fun _ _ => none,
    createChannel := fun _ _ =>
      Except.error { message := "create channel failed", statusCode := 500 } }

/-- A plugin state with a previously published configuration. -/
def pluginPrev : Plugin := { configuration := some cfgPrev, botID := "bot0" }

/-- Witness for C1: against `apiC1` the reload fails on channel creation and
the previously published snapshot `cfgPrev` stays active. -/
theorem OnConfigurationChange_ensure_failure_keeps_configuration_witness :
    apiC1.loadPluginConfiguration = Except.ok settingsOk ∧
    ensureDemoUser apiC1
        (loadPluginConfigurationInto (getConfiguration pluginPrev).Clone
          settingsOk)
      = Except.ok "u1" ∧
    apiC1.ensureBot = Except.ok "bot1" ∧
    ensureDemoChannels apiC1
        { loadPluginConfigurationInto (getConfiguration pluginPrev).Clone
            settingsOk with
          demoUserID := "u1" }
      = Except.error { message := "create channel failed", statusCode := 500 } ∧
    (OnConfigurationChange apiC1 pluginPrev).2.configuration
      = pluginPrev.configuration :=
  ⟨rfl, rfl, rfl, rfl,
    (OnConfigurationChange_ensure_failure_keeps_configuration apiC1 pluginPrev
      settingsOk "u1" "bot1"
      { message := "create channel failed", statusCode := 500 }
      rfl rfl rfl rfl).2⟩

/-- C7: when the host reports no teams and the configuration-load, demo-user
and bot steps succeed, `OnConfigurationChange` succeeds and publishes a
configuration whose team-to-channel mapping is the empty map. -/
theorem OnConfigurationChange_no_teams_publishes_empty_mapping
    (api : PluginAPI) (p : Plugin) (s : PluginSettings) (uid bid : String)
    (hteams : api.getTeams = Except.ok [])
    (hload : api.loadPluginConfiguration = Except.ok s)
    (huser : ensureDemoUser api
        (loadPluginConfigurationInto (getConfiguration p).Clone s)
      = Except.ok uid)
    (hbot : api.ensureBot = Except.ok bid) :
    (OnConfigurationChange api p).1 = Except.ok () ∧
    (OnConfigurationChange api p).2.configuration.isSome = true ∧
    (getConfiguration (OnConfigurationChange api p).2).demoChannelIDs = [] := by
  have hch : ensureDemoChannels api
      { loadPluginConfigurationInto (getConfiguration p).Clone s with
        demoUserID := uid } = Except.ok [] := by
    rw [ensureDemoChannels, hteams]
    rfl
  refine ⟨?_, ?_, ?_⟩ <;>
    simp only [OnConfigurationChange, hload, huser, hbot, hch] <;>
    simp [getConfiguration]

/-- A host that reports no teams at all. -/
def apiC7 : PluginAPI := { apiOk with getTeams := Except.ok [] }

/-- Witness for C7: against `apiC7` the reload succeeds and the published
mapping is empty. -/
theorem OnConfigurationChange_no_teams_publishes_empty_mapping_witness :
    apiC7.getTeams = Except.ok [] ∧
    (OnConfigurationChange apiC7 pluginPrev).1 = Except.ok () ∧
    (getConfiguration (OnConfigurationChange apiC7 pluginPrev).2).demoChannelIDs
      = [] :=
  ⟨rfl,
    (OnConfigurationChange_no_teams_publishes_empty_mapping apiC7 pluginPrev
      settingsOk "u1" "bot1" rfl rfl rfl rfl).1,
    (OnConfigurationChange_no_teams_publishes_empty_mapping apiC7 pluginPrev
      settingsOk "u1" "bot1" rfl rfl rfl rfl).2.2⟩

/-- A dialog submission whose map lacks the `4-User Impact` key. -/
def reqNoImpact : SubmitDialogRequest :=
  { cancelled := false, userId := "u1",
    submission := [("1-Description", some (GoValue.str "help"))] }

/-- C9: the dialog handler runs an unchecked type assertion on
`Submission["4-User Impact"]`: a request without that key (or with a
non-string value there) makes `handleDialog` panic instead of answering
with an error response — exhibited at the concrete request `reqNoImpact` —
and for every request binding that key to a string other than High, Medium
or Low, the attachment color is the empty string. -/
theorem handleDialog_assertion_panics_and_default_color :
    handleDialog apiOk pluginPrev (some reqNoImpact)
      = Except.error "interface conversion: interface is nil, not string" ∧
    ∀ (api : PluginAPI) (p : Plugin) (req : SubmitDialogRequest)
      (u : User) (s : String),
      api.getUser req.userId = Except.ok u →
      submissionGet req.submission "4-User Impact"
        = some (GoValue.str s) →
      s ≠ "High" → s ≠ "Medium" → s ≠ "Low" →
      ∃ posts, handleDialog api p (some req)
        = Except.ok (DialogResult.reached "", posts) := by
  refine ⟨rfl, ?_⟩
  intro api p req u s hget hsub h1 h2 h3
  refine ⟨handleDialogActivatePosts api p, ?_⟩
  simp only [handleDialog, hget, hsub, typeAssertString]
  simp [h1, h2, h3]

/-- A dialog submission binding `4-User Impact` to a string that is not one
of High, Medium, Low. -/
def reqCritical : SubmitDialogRequest :=
  { cancelled := false, userId := "u1",
    submission := [("4-User Impact", some (GoValue.str "Critical"))] }

/-- Witness for C9: the universal part applied at the concrete request
binding `4-User Impact` to `"Critical"` yields the empty attachment
color. -/
theorem handleDialog_assertion_panics_and_default_color_witness :
    apiOk.getUser "u1"
      = Except.ok { id := "u1", username := "demouser", lastName := "Demo" } ∧
    submissionGet reqCritical.submission "4-User Impact"
      = some (GoValue.str "Critical") ∧
    ∃ posts, handleDialog apiOk pluginPrev (some reqCritical)
      = Except.ok (DialogResult.reached "", posts) :=
  ⟨rfl, rfl,
    handleDialog_assertion_panics_and_default_color.2 apiOk pluginPrev
      reqCritical { id := "u1", username := "demouser", lastName := "Demo" }
      "Critical" rfl rfl (by decide) (by decide) (by decide)⟩

end DemoPlugin
